import Mathlib

/-!
# Verification of the evidence-classification engine

Shallow embedding of the classification core of the `web-scraper-sheets`
repository: the drone-evidence classifier `utility_uses_drones` together with
its name-variation generator `get_utility_name_variations` (from `main.py`),
and the Pano-AI classifier `check_pano_ai_usage` with its generator
`_generate_utility_name_variations` (from `sheets_scraper_pano.py`).

Python strings are modelled as Lean `String`s restricted to the ASCII
fragment the program manipulates; the Python string primitives used by the
code (`lower`, `strip`, `split`, `replace`, substring membership `in`,
`" ".join`) are embedded as structurally recursive functions below so that
every definition evaluates by kernel reduction.
-/

namespace WebScraper

/-- Python `s.lower()` (ASCII). -/
def pyLower (s : String) : String := ⟨s.data.map Char.toLower⟩

/-- Python `s.strip()`: remove leading and trailing whitespace. -/
def pyStrip (s : String) : String :=
  ⟨((s.data.dropWhile Char.isWhitespace).reverse.dropWhile Char.isWhitespace).reverse⟩

/-- Python `sub in s`: substring membership. -/
def strContains (s sub : String) : Bool :=
  (List.range (s.data.length + 1)).any (fun i => sub.data.isPrefixOf (s.data.drop i))

/-- Helper for `pyWords`: accumulate the current word (reversed) while
scanning the character list. -/
def wordsAux : List Char → List Char → List String
  | cur, [] => if cur.isEmpty then [] else [⟨cur.reverse⟩]
  | cur, c :: cs =>
    if c.isWhitespace then
      if cur.isEmpty then wordsAux [] cs else ⟨cur.reverse⟩ :: wordsAux [] cs
    else
      wordsAux (c :: cur) cs

/-- Python `s.split()` (no argument): split on whitespace runs, dropping
empty pieces. -/
def pyWords (s : String) : List String := wordsAux [] s.data

/-- Helper for `pyReplace`: replace every non-overlapping occurrence of `p`
by `r`, scanning left to right.  The fuel argument (instantiated with the
length of the string) keeps the recursion structural; one character of the
scanned list is consumed at every step, so the fuel never runs out. -/
def replaceAux (p r : List Char) : Nat → List Char → List Char
  | 0, s => s
  | _ + 1, [] => []
  | fuel + 1, c :: s =>
    if p.isPrefixOf (c :: s) then r ++ replaceAux p r fuel ((c :: s).drop p.length)
    else c :: replaceAux p r fuel s

/-- Python `s.replace(pat, rep)`.  The embedded code only ever calls it with
a non-empty pattern; the empty-pattern guard returns `s` unchanged. -/
def pyReplace (s pat rep : String) : String :=
  if pat.data.isEmpty then s else ⟨replaceAux pat.data rep.data s.data.length s.data⟩

/-- Python `" ".join(ws)`. -/
def joinSpace : List String → String
  | [] => ""
  | [w] => w
  | w :: ws => w ++ " " ++ joinSpace ws

/-- The `seen`-set deduplication loop of `main.py` (lines 441-447): walk the
list, keeping a `seen` collection and an output accumulator, appending each
element the first time it is met. -/
def dedupLoop (seen acc : List String) : List String → List String
  | [] => acc
  | x :: xs => if x ∈ seen then dedupLoop seen acc xs else dedupLoop (x :: seen) (acc ++ [x]) xs

/-- Deduplicate preserving first-seen order, as `main.py` does with a
`seen` set and an output list. -/
def dedupFirstSeen (l : List String) : List String := dedupLoop [] [] l

/-- Accumulator-free form of the first-seen deduplication: skip elements
already seen, otherwise emit and remember them. -/
def firstSeenAux (seen : List String) : List String → List String
  | [] => []
  | x :: xs => if x ∈ seen then firstSeenAux seen xs else x :: firstSeenAux (x :: seen) xs

/-- Modelled from the spec: "Deduplicate candidate list preserving
first-seen order" — keep the first occurrence of every element in place and
drop all later duplicates. -/
def firstSeenSpec : List String → List String
  | [] => []
  | x :: xs => x :: firstSeenSpec (xs.filter (fun a => !(a == x)))
  termination_by l => l.length
  decreasing_by
    simpa using Nat.lt_succ_of_le (List.length_filter_le _ _)

theorem dedupLoop_eq_aux (l : List String) :
    ∀ seen acc, dedupLoop seen acc l = acc ++ firstSeenAux seen l := by
  induction l with
  | nil => intro seen acc; simp [dedupLoop, firstSeenAux]
  | cons x xs ih =>
    intro seen acc
    by_cases h : x ∈ seen
    · simp [dedupLoop, firstSeenAux, h, ih]
    · simp [dedupLoop, firstSeenAux, h, ih]

theorem dedupFirstSeen_eq_aux (l : List String) : dedupFirstSeen l = firstSeenAux [] l := by
  simp [dedupFirstSeen, dedupLoop_eq_aux]

theorem mem_firstSeenAux {x : String} (l : List String) :
    ∀ seen, x ∈ firstSeenAux seen l ↔ x ∈ l ∧ x ∉ seen := by
  induction l with
  | nil => intro seen; simp [firstSeenAux]
  | cons y ys ih =>
    intro seen
    by_cases h : y ∈ seen
    · rw [firstSeenAux, if_pos h, ih]
      constructor
      · rintro ⟨hm, hn⟩; exact ⟨List.mem_cons_of_mem _ hm, hn⟩
      · rintro ⟨hm, hn⟩
        rcases List.mem_cons.mp hm with rfl | hm'
        · exact absurd h hn
        · exact ⟨hm', hn⟩
    · rw [firstSeenAux, if_neg h, List.mem_cons, ih]
      constructor
      · rintro (rfl | ⟨hm, hn⟩)
        · exact ⟨List.mem_cons_self _ _, h⟩
        · exact ⟨List.mem_cons_of_mem _ hm, fun hx => hn (List.mem_cons_of_mem _ hx)⟩
      · rintro ⟨hm, hn⟩
        rcases List.mem_cons.mp hm with rfl | hm'
        · exact Or.inl rfl
        · by_cases hxy : x = y
          · exact Or.inl hxy
          · refine Or.inr ⟨hm', fun hx => ?_⟩
            rcases List.mem_cons.mp hx with h1 | h2
            · exact hxy h1
            · exact hn h2

theorem nodup_firstSeenAux (l : List String) : ∀ seen, (firstSeenAux seen l).Nodup := by
  induction l with
  | nil => intro seen; simp [firstSeenAux]
  | cons y ys ih =>
    intro seen
    by_cases h : y ∈ seen
    · simpa [firstSeenAux, h] using ih seen
    · simp only [firstSeenAux, if_neg h]
      refine List.nodup_cons.mpr ⟨?_, ih _⟩
      intro hy
      exact ((mem_firstSeenAux ys _).mp hy).2 (List.mem_cons_self _ _)

theorem sublist_firstSeenAux (l : List String) : ∀ seen, (firstSeenAux seen l).Sublist l := by
  induction l with
  | nil => intro seen; simp [firstSeenAux]
  | cons y ys ih =>
    intro seen
    by_cases h : y ∈ seen
    · simpa [firstSeenAux, h] using (ih seen).cons y
    · simpa [firstSeenAux, h] using (ih (y :: seen)).cons₂ y

theorem firstSeenAux_congr (l : List String) :
    ∀ seen seen', (∀ a, a ∈ seen ↔ a ∈ seen') →
      firstSeenAux seen l = firstSeenAux seen' l := by
  induction l with
  | nil => intro seen seen' _; rfl
  | cons y ys ih =>
    intro seen seen' h
    by_cases hy : y ∈ seen
    · simp only [firstSeenAux, if_pos hy, if_pos ((h y).mp hy)]
      exact ih _ _ h
    · have hy' : y ∉ seen' := fun hc => hy ((h y).mpr hc)
      simp only [firstSeenAux, if_neg hy, if_neg hy']
      refine congrArg _ (ih _ _ ?_)
      intro a
      simp only [List.mem_cons]
      exact or_congr Iff.rfl (h a)

theorem firstSeenAux_cons_seen (l : List String) :
    ∀ (seen : List String) (x : String),
      firstSeenAux (x :: seen) l = firstSeenAux seen (l.filter (fun a => !(a == x))) := by
  induction l with
  | nil => intro seen x; rfl
  | cons y ys ih =>
    intro seen x
    by_cases hxy : y = x
    · subst hxy
      simp only [firstSeenAux, List.mem_cons, true_or, if_true, List.filter]
      simp only [beq_self_eq_true, Bool.not_true]
      exact ih seen y
    · by_cases hy : y ∈ seen
      · have : y ∈ x :: seen := List.mem_cons_of_mem _ hy
        simp only [firstSeenAux, if_pos this, List.filter, show (y == x) = false by
            simpa using hxy, Bool.not_false, if_pos hy]
        exact ih seen x
      · have hny : y ∉ x :: seen := by
          intro hc
          rcases List.mem_cons.mp hc with h1 | h2
          · exact hxy h1
          · exact hy h2
        simp only [firstSeenAux, if_neg hny, List.filter, show (y == x) = false by
            simpa using hxy, Bool.not_false, if_neg hy]
        refine congrArg _ ?_
        have h1 : firstSeenAux (y :: x :: seen) ys = firstSeenAux (x :: y :: seen) ys := by
          refine firstSeenAux_congr ys _ _ ?_
          intro a
          simp only [List.mem_cons]
          tauto
        rw [h1, ih (y :: seen) x]

theorem firstSeenAux_nil_eq : ∀ l : List String, firstSeenAux [] l = firstSeenSpec l
  | [] => by rw [firstSeenSpec]; rfl
  | x :: xs => by
    rw [firstSeenSpec]
    simp only [firstSeenAux, List.not_mem_nil, if_false]
    rw [firstSeenAux_cons_seen xs [] x]
    exact congrArg _ (firstSeenAux_nil_eq (xs.filter (fun a => !(a == x))))
  termination_by l => l.length
  decreasing_by
    simpa using Nat.lt_succ_of_le (List.length_filter_le _ _)

theorem dedupFirstSeen_eq_spec (l : List String) : dedupFirstSeen l = firstSeenSpec l := by
  rw [dedupFirstSeen_eq_aux, firstSeenAux_nil_eq]

theorem mem_dedupFirstSeen {x : String} (l : List String) :
    x ∈ dedupFirstSeen l ↔ x ∈ l := by
  rw [dedupFirstSeen_eq_aux]
  simpa using mem_firstSeenAux l []

theorem nodup_dedupFirstSeen (l : List String) : (dedupFirstSeen l).Nodup := by
  rw [dedupFirstSeen_eq_aux]; exact nodup_firstSeenAux l []

theorem sublist_dedupFirstSeen (l : List String) : (dedupFirstSeen l).Sublist l := by
  rw [dedupFirstSeen_eq_aux]; exact sublist_firstSeenAux l []

/-- One organic search result: the three text fields the classifiers read
(`result.get("title", "")`, `result.get("snippet", "")`,
`result.get("link", "")`). -/
structure SearchResult where
  title : String
  snippet : String
  link : String
deriving DecidableEq, Repr

/-- A raw result record whose fields may be missing, as a SerpAPI response
dict may omit any of `title`, `snippet`, `link`. -/
structure RawResult where
  title? : Option String
  snippet? : Option String
  link? : Option String
deriving DecidableEq, Repr

/-- Defaulting of missing fields to the empty string, as performed by
`result.get(..., "")` in `main.py` (lines 377-379) and
`scraper.extract_organic_results`. -/
def rawToResult (r : RawResult) : SearchResult :=
  ⟨r.title?.getD "", r.snippet?.getD "", r.link?.getD ""⟩

/-- The keyword configuration of a classification run (the spec's
`MatchCriteria`): `main.py` hard-codes one such configuration inside
`utility_uses_drones`; the embedding takes it as a parameter and
instantiates it with the hard-coded `droneCriteria` below. -/
structure MatchCriteria where
  subjectKeywords : List String
  contextKeywords : List String
  bannedDomains : List String
  bannedKeywords : List String
deriving DecidableEq, Repr

/-- The classification outcome: the evidence boolean and the deduplicated
source URLs.  `main.py` renders the pair as `(True, "; ".join(urls))` or
`(False, None)`; the URL list is the pre-rendering value. -/
structure ClassificationResult where
  hasEvidence : Bool
  sourceUrls : List String
deriving DecidableEq, Repr

/-- `drone_keywords` of `main.py` (line 306). -/
def drone_keywords : List String :=
  ["uas", "uav", "drone", "unmanned aerial vehicle", "unmanned aerial"]

/-- `context_keywords` of `main.py` (lines 309-314). -/
def context_keywords : List String :=
  ["power line", "transmission line", "distribution line",
   "utility inspection", "line inspection", "infrastructure inspection",
   "electrical inspection", "grid inspection", "pole inspection",
   "transmission", "distribution", "electrical grid"]

/-- `banned_domains` of `main.py` (line 364). -/
def banned_domains : List String := ["ziprecruiter", "facebook"]

/-- `banned_keywords` of `main.py` (lines 367-371). -/
def banned_keywords : List String :=
  ["careers", "career", "recruiting", "recruiter", "recruitment",
   "jobs", "job-board", "jobboard", "hiring", "indeed", "monster",
   "glassdoor", "linkedin.com/jobs", "simplyhired", "dice.com"]

/-- The criteria configuration hard-coded in `utility_uses_drones`. -/
def droneCriteria : MatchCriteria :=
  ⟨drone_keywords, context_keywords, banned_domains, banned_keywords⟩

/-- The corporate-suffix stoplist of `get_utility_name_variations`
(`main.py` lines 350-351). -/
def name_suffixes : List String :=
  ["inc", "inc.", "incorporated", "assn", "assn.", "association",
   "co-op", "cooperative", "co", "corp", "corp.", "corporation"]

/-- `get_utility_name_variations` of `main.py` (lines 317-359): the
variation list built by the chain of conditional appends, then
deduplicated.  Python returns `list(set(variations))` in unspecified set
order; every consumer of the output is order-insensitive (boolean `any`
over the list or filters feeding `any`), so the set is modelled as the
first-seen deduplication of the append order. -/
def get_utility_name_variations (name : String) : List String :=
  let nl := pyLower (pyStrip name)
  let base :=
    [nl]
    ++ (if strContains nl "co-op" then
          [pyReplace nl "co-op" "cooperative", pyReplace nl "co-op" "co-op"] else [])
    ++ (if strContains nl "cooperative" then
          [pyReplace nl "cooperative" "co-op"] else [])
    ++ (if strContains nl "assn" || strContains nl "assn." then
          [pyReplace (pyReplace nl "assn." "association") "assn" "association",
           pyReplace (pyReplace nl "assn." "assn") "association" "assn"] else [])
    ++ (if strContains nl "association" then
          [pyReplace nl "association" "assn"] else [])
    ++ (if strContains nl "inc." || strContains nl "inc" then
          [pyReplace (pyReplace nl "inc." "incorporated") "inc" "incorporated",
           pyReplace (pyReplace nl "inc." "inc") "incorporated" "inc"] else [])
    ++ (if strContains nl "incorporated" then
          [pyReplace nl "incorporated" "inc"] else [])
    ++ [pyReplace (pyReplace nl "." "") "," ""]
    ++ (let main_words := (pyWords nl).filter (fun w => decide (w ∉ name_suffixes))
        if main_words.length ≥ 2 then
          [joinSpace (main_words.take 2)]
          ++ (if main_words.length ≥ 3 then [joinSpace (main_words.take 3)] else [])
        else [])
  dedupFirstSeen base

/-- `significant_words` of the Tier-B check (`main.py` lines 413-414). -/
def significant_words : List String :=
  ["electric", "power", "energy", "cooperative", "utility",
   "association", "district", "service", "authority"]

/-- The name-presence check of `utility_uses_drones` (`main.py` lines
392-421) for one result.  Returns `(has_utility_name, break_fired)`: the
second component is `true` exactly when control reached the misindented
`break` at line 421 (Tier A failed and the utility name has at most three
words), which in the source terminates the whole results loop. -/
def nameCheck (utility_name : String) (vars : List String) (text_blob : String) :
    Bool × Bool :=
  let full := vars.filter (fun v => decide ((pyWords v).length ≥ 3))
  let has1 := if full.isEmpty then false else full.any (fun v => strContains text_blob v)
  let has2 :=
    if !has1 then
      let three := vars.filter (fun v => decide ((pyWords v).length ≥ 3))
      if three.isEmpty then has1 else three.any (fun v => strContains text_blob v)
    else has1
  if !has2 then
    if (pyWords utility_name).length ≤ 3 then
      let two := vars.filter (fun v => decide ((pyWords v).length = 2))
      let has3 :=
        if two.isEmpty then has2
        else two.any (fun v =>
          (pyWords v).any (fun w => decide (w ∈ significant_words)) && strContains text_blob v)
      (has3, true)
    else (has2, false)
  else (has2, false)

/-- The results loop of `utility_uses_drones` (`main.py` lines 376-437),
collecting `valid_matches`.  A `true` second component of `nameCheck`
models the `break` at line 421: the loop ends at once, before the drone
and context keyword checks of the current result. -/
def collectMatches (crit : MatchCriteria) (utility_name : String) (vars : List String) :
    List SearchResult → List String
  | [] => []
  | r :: rs =>
    let link_lower := pyLower r.link
    if crit.bannedDomains.any (fun b => strContains link_lower b) then
      collectMatches crit utility_name vars rs
    else if crit.bannedKeywords.any (fun k => strContains link_lower k) then
      collectMatches crit utility_name vars rs
    else
      let text_blob := pyLower (r.title ++ " " ++ r.snippet)
      let nc := nameCheck utility_name vars text_blob
      if nc.2 then []
      else if !nc.1 then collectMatches crit utility_name vars rs
      else if !(crit.subjectKeywords.any (fun k => strContains text_blob k)) then
        collectMatches crit utility_name vars rs
      else if !(crit.contextKeywords.any (fun c => strContains text_blob c)) then
        collectMatches crit utility_name vars rs
      else r.link :: collectMatches crit utility_name vars rs

/-- `utility_uses_drones` of `main.py` (lines 277-454) on an already
extracted `organic_results` list: empty results give a definite negative;
otherwise the collected matches are deduplicated preserving first-seen
order.  `(False, None)` is modelled as `⟨false, []⟩`, and the
`"; ".join` rendering of the URL list is left to the caller. -/
def utility_uses_drones (crit : MatchCriteria) (utility_name : String)
    (results : List SearchResult) : ClassificationResult :=
  if results.isEmpty then ⟨false, []⟩
  else
    let vars := get_utility_name_variations utility_name
    let valid := collectMatches crit utility_name vars results
    if valid.isEmpty then ⟨false, []⟩ else ⟨true, dedupFirstSeen valid⟩

/-- The same results loop over raw records, defaulting missing fields to
the empty string inline, exactly as `main.py` lines 377-379 do with
`result.get(..., "")`. -/
def collectMatchesRaw (crit : MatchCriteria) (utility_name : String) (vars : List String) :
    List RawResult → List String
  | [] => []
  | r :: rs =>
    let title := r.title?.getD ""
    let snippet := r.snippet?.getD ""
    let link := r.link?.getD ""
    let link_lower := pyLower link
    if crit.bannedDomains.any (fun b => strContains link_lower b) then
      collectMatchesRaw crit utility_name vars rs
    else if crit.bannedKeywords.any (fun k => strContains link_lower k) then
      collectMatchesRaw crit utility_name vars rs
    else
      let text_blob := pyLower (title ++ " " ++ snippet)
      let nc := nameCheck utility_name vars text_blob
      if nc.2 then []
      else if !nc.1 then collectMatchesRaw crit utility_name vars rs
      else if !(crit.subjectKeywords.any (fun k => strContains text_blob k)) then
        collectMatchesRaw crit utility_name vars rs
      else if !(crit.contextKeywords.any (fun c => strContains text_blob c)) then
        collectMatchesRaw crit utility_name vars rs
      else link :: collectMatchesRaw crit utility_name vars rs

/-- `utility_uses_drones` taken over raw records with possibly missing
fields. -/
def utility_uses_drones_raw (crit : MatchCriteria) (utility_name : String)
    (raws : List RawResult) : ClassificationResult :=
  if raws.isEmpty then ⟨false, []⟩
  else
    let vars := get_utility_name_variations utility_name
    let valid := collectMatchesRaw crit utility_name vars raws
    if valid.isEmpty then ⟨false, []⟩ else ⟨true, dedupFirstSeen valid⟩

/-- `_generate_utility_name_variations` of `sheets_scraper_pano.py`
(lines 261-298): case-sensitive substitutions on the unmodified name,
followed by a first-seen deduplication pass (which the source performs
explicitly with a `seen` set). -/
def pano_variations (utility_name : String) : List String :=
  let base :=
    [utility_name]
    ++ (if strContains utility_name "Cooperative" then
          [pyReplace utility_name "Cooperative" "Coop",
           pyReplace utility_name "Cooperative" "Co-op"] else [])
    ++ (if strContains utility_name "Company" then
          [pyReplace utility_name "Company" "Co",
           pyReplace utility_name "Company" "Co."] else [])
    ++ (if strContains utility_name "Corporation" then
          [pyReplace utility_name "Corporation" "Corp",
           pyReplace utility_name "Corporation" "Corp."] else [])
  dedupFirstSeen base

/-- `banned_urls` of `check_pano_ai_usage` (lines 360-365). -/
def pano_banned_urls : List String :=
  ["distributech.com", "chartwellinc.com", "lobbylinx.com",
   "re-plus.com/see-whos-attending/"]

/-- `banned_words` of `check_pano_ai_usage` (line 376). -/
def pano_banned_words : List String := ["panasonic"]

/-- `required_pano_keywords` of `check_pano_ai_usage` (line 325). -/
def required_pano_keywords : List String :=
  ["pano ai", "panoai", "ai camera", "ai-enabled camera", "ai enabled camera",
   "ai-powered camera", "ai powered camera", "ai-powered cameras",
   "ai powered cameras"]

/-- Admissibility of one result in the Pano loop: the link hits no banned
URL and the lowercased `title snippet` text holds no banned word
(lines 359-378). -/
def panoAdmissible (r : SearchResult) : Bool :=
  !(pano_banned_urls.any (fun b => strContains (pyLower r.link) b))
  && !(pano_banned_words.any (fun w =>
        strContains (pyLower r.title ++ " " ++ pyLower r.snippet) w))

/-- The match condition of the Pano loop: some lowercased name variation
occurs in the lowercased title or snippet, and some required Pano keyword
occurs in the combined text (lines 380-394). -/
def panoMatch (vars_lower : List String) (r : SearchResult) : Bool :=
  (vars_lower.any (fun v =>
     strContains (pyLower r.title) v || strContains (pyLower r.snippet) v))
  && (required_pano_keywords.any (fun k =>
        strContains (pyLower r.title ++ " " ++ pyLower r.snippet) k))

/-- The results loop of `check_pano_ai_usage` (lines 354-399), building
`source_urls`: a qualifying result appends its link when the link is
non-empty and not yet collected. -/
def panoLoop (vars_lower : List String) (acc : List String) :
    List SearchResult → List String
  | [] => acc
  | r :: rs =>
    if !(panoAdmissible r) then panoLoop vars_lower acc rs
    else if panoMatch vars_lower r then
      if r.link ≠ "" ∧ r.link ∉ acc then panoLoop vars_lower (acc ++ [r.link]) rs
      else panoLoop vars_lower acc rs
    else panoLoop vars_lower acc rs

/-- `check_pano_ai_usage` of `sheets_scraper_pano.py` (lines 300-412) on an
already fetched `organic_results` list: the query construction, the
search call and its timeout handling are the external fetch collaborator.
`found_evidence = len(source_urls) > 0`. -/
def check_pano_ai_usage (utility_name : String) (organic_results : List SearchResult) :
    Bool × List String :=
  let vars_lower := (pano_variations utility_name).map pyLower
  let source_urls := panoLoop vars_lower [] organic_results
  (!source_urls.isEmpty, source_urls)

/-- C1: on the spec's Scenario 3 — name "SECO Energy", a result whose text
contains the qualifying 2-word variation "seco energy" together with a
drone keyword and an inspection-context keyword — the code does NOT return
`hasEvidence = true`.  Tier B does set `has_utility_name` (first
conjunct), but the misindented `break` at `main.py` line 421 exits the
results loop before the subject/context checks, so the classifier returns
`⟨false, []⟩` (second conjunct). -/
theorem c1_scenario3_returns_false :
    (nameCheck "SECO Energy" (get_utility_name_variations "SECO Energy")
       (pyLower ("SECO Energy begins drone inspection of transmission line" ++ " " ++ ""))).1
      = true
    ∧ utility_uses_drones droneCriteria "SECO Energy"
        [⟨"SECO Energy begins drone inspection of transmission line", "",
          "https://example.com/seco"⟩]
      = ⟨false, []⟩ := by
  exact ⟨by decide, by decide⟩

/-- C2: the results loop does not examine every record.  The second record
below qualifies on its own (first conjunct), but when it is preceded by an
admissible non-matching record the loop breaks at that first record —
Tier A fails there and the 3-word name triggers the Tier-B `break` — so
the second record is never examined and the classifier returns
`⟨false, []⟩` (second conjunct). -/
theorem c2_later_results_unexamined :
    utility_uses_drones droneCriteria "Alpha Beta Energy"
      [⟨"Alpha Beta Energy drone program",
        "drone inspection of transmission line", "https://example.com/second"⟩]
      = ⟨true, ["https://example.com/second"]⟩
    ∧ utility_uses_drones droneCriteria "Alpha Beta Energy"
      [⟨"irrelevant first hit", "", "https://example.com/first"⟩,
       ⟨"Alpha Beta Energy drone program",
        "drone inspection of transmission line", "https://example.com/second"⟩]
      = ⟨false, []⟩ := by
  exact ⟨by decide, by decide⟩

/-- C3: a result containing a 3-word name variation plus both required
keywords is not always classified as evidence: it is when examined (first
conjunct), but an earlier admissible result that enters the Tier-B path
terminates the loop through the misindented `break`, so the Tier-A result
after it is never reached and contributes nothing (second conjunct). -/
theorem c3_three_word_match_lost_after_break :
    utility_uses_drones droneCriteria "Acme Power District"
      [⟨"Acme Power District deploys drones",
        "inspection of transmission line by drone", "https://example.com/apd"⟩]
      = ⟨true, ["https://example.com/apd"]⟩
    ∧ utility_uses_drones droneCriteria "Acme Power District"
      [⟨"annual meeting agenda", "", "https://example.com/meet"⟩,
       ⟨"Acme Power District deploys drones",
        "inspection of transmission line by drone", "https://example.com/apd"⟩]
      = ⟨false, []⟩ := by
  exact ⟨by decide, by decide⟩

/-- C4: for every organization name and every criteria configuration,
classifying an empty results sequence returns no evidence and an empty
URL list; the function is total, so this is a definite value, not an
error. -/
theorem c4_empty_results_negative (utility_name : String) (crit : MatchCriteria) :
    utility_uses_drones crit utility_name [] = ⟨false, []⟩ := rfl

/-- The name-presence check with the second Tier-A pass
(`three_word_variations`, `main.py` lines 399-403) removed; everything
else is identical to `nameCheck`. -/
def nameCheckNoSecond (utility_name : String) (vars : List String) (text_blob : String) :
    Bool × Bool :=
  let full := vars.filter (fun v => decide ((pyWords v).length ≥ 3))
  let has1 := if full.isEmpty then false else full.any (fun v => strContains text_blob v)
  if !has1 then
    if (pyWords utility_name).length ≤ 3 then
      let two := vars.filter (fun v => decide ((pyWords v).length = 2))
      let has3 :=
        if two.isEmpty then has1
        else two.any (fun v =>
          (pyWords v).any (fun w => decide (w ∈ significant_words)) && strContains text_blob v)
      (has3, true)
    else (has1, false)
  else (has1, false)

/-- The results loop with `nameCheckNoSecond` in place of `nameCheck`. -/
def collectMatchesNoSecond (crit : MatchCriteria) (utility_name : String)
    (vars : List String) : List SearchResult → List String
  | [] => []
  | r :: rs =>
    let link_lower := pyLower r.link
    if crit.bannedDomains.any (fun b => strContains link_lower b) then
      collectMatchesNoSecond crit utility_name vars rs
    else if crit.bannedKeywords.any (fun k => strContains link_lower k) then
      collectMatchesNoSecond crit utility_name vars rs
    else
      let text_blob := pyLower (r.title ++ " " ++ r.snippet)
      let nc := nameCheckNoSecond utility_name vars text_blob
      if nc.2 then []
      else if !nc.1 then collectMatchesNoSecond crit utility_name vars rs
      else if !(crit.subjectKeywords.any (fun k => strContains text_blob k)) then
        collectMatchesNoSecond crit utility_name vars rs
      else if !(crit.contextKeywords.any (fun c => strContains text_blob c)) then
        collectMatchesNoSecond crit utility_name vars rs
      else r.link :: collectMatchesNoSecond crit utility_name vars rs

/-- The classifier with the second Tier-A pass removed. -/
def utility_uses_drones_noSecond (crit : MatchCriteria) (utility_name : String)
    (results : List SearchResult) : ClassificationResult :=
  if results.isEmpty then ⟨false, []⟩
  else
    let vars := get_utility_name_variations utility_name
    let valid := collectMatchesNoSecond crit utility_name vars results
    if valid.isEmpty then ⟨false, []⟩ else ⟨true, dedupFirstSeen valid⟩

theorem nameCheck_eq_noSecond (un : String) (vars : List String) (blob : String) :
    nameCheck un vars blob = nameCheckNoSecond un vars blob := by
  unfold nameCheck nameCheckNoSecond
  cases he : (vars.filter (fun v => decide ((pyWords v).length ≥ 3))).isEmpty
  · cases ha : (vars.filter (fun v => decide ((pyWords v).length ≥ 3))).any
        (fun v => strContains blob v)
    · simp [he, ha]
    · simp [he, ha]
  · simp [he]

theorem collectMatches_eq_noSecond (crit : MatchCriteria) (un : String)
    (vars : List String) :
    ∀ rs, collectMatches crit un vars rs = collectMatchesNoSecond crit un vars rs := by
  intro rs
  induction rs with
  | nil => rfl
  | cons r rs ih =>
    simp only [collectMatches, collectMatchesNoSecond, nameCheck_eq_noSecond, ih]

theorem collectMatchesRaw_eq_map (crit : MatchCriteria) (un : String)
    (vars : List String) :
    ∀ raws, collectMatchesRaw crit un vars raws
      = collectMatches crit un vars (raws.map rawToResult) := by
  intro raws
  induction raws with
  | nil => rfl
  | cons r rs ih =>
    simp only [collectMatchesRaw, List.map, collectMatches, rawToResult, ih]

theorem panoLoop_append (vl : List String) :
    ∀ (rs : List SearchResult) (acc : List String), ∃ t, panoLoop vl acc rs = acc ++ t := by
  intro rs
  induction rs with
  | nil => intro acc; exact ⟨[], by simp [panoLoop]⟩
  | cons r rs ih =>
    intro acc
    rw [panoLoop]
    split
    · exact ih acc
    · split
      · split
        · rcases ih (acc ++ [r.link]) with ⟨t, ht⟩
          exact ⟨[r.link] ++ t, by simp [ht]⟩
        · exact ih acc
      · exact ih acc

theorem mem_acc_panoLoop (vl : List String) {x : String} :
    ∀ (rs : List SearchResult) (acc : List String), x ∈ acc → x ∈ panoLoop vl acc rs := by
  intro rs acc hx
  rcases panoLoop_append vl rs acc with ⟨t, ht⟩
  rw [ht]
  exact List.mem_append_left _ hx

theorem nodup_panoLoop (vl : List String) :
    ∀ (rs : List SearchResult) (acc : List String), acc.Nodup → (panoLoop vl acc rs).Nodup := by
  intro rs
  induction rs with
  | nil => intro acc h; simpa [panoLoop] using h
  | cons r rs ih =>
    intro acc h
    rw [panoLoop]
    split
    · exact ih acc h
    · split
      · split
        · rename_i hg
          refine ih _ (List.Nodup.append h (List.nodup_singleton _) ?_)
          intro a ha hb
          exact hg.2 ((List.mem_singleton.mp hb) ▸ ha)
        · exact ih acc h
      · exact ih acc h

theorem panoLoop_no_empty (vl : List String) :
    ∀ (rs : List SearchResult) (acc : List String), "" ∉ acc → "" ∉ panoLoop vl acc rs := by
  intro rs
  induction rs with
  | nil => intro acc h; simpa [panoLoop] using h
  | cons r rs ih =>
    intro acc h
    rw [panoLoop]
    split
    · exact ih acc h
    · split
      · split
        · rename_i hg
          refine ih _ ?_
          intro hc
          rcases List.mem_append.mp hc with h1 | h2
          · exact h h1
          · exact hg.1 ((List.mem_singleton.mp h2).symm)
        · exact ih acc h
      · exact ih acc h

theorem mem_panoLoop_of_qualifies (vl : List String) {r : SearchResult} :
    ∀ (rs : List SearchResult) (acc : List String), r ∈ rs →
      panoAdmissible r = true → panoMatch vl r = true → r.link ≠ "" →
      r.link ∈ panoLoop vl acc rs := by
  intro rs
  induction rs with
  | nil => intro acc h; simp at h
  | cons s rs ih =>
    intro acc hmem hadm hmatch hlink
    rw [panoLoop]
    rcases List.mem_cons.mp hmem with rfl | hmem'
    · rw [if_neg (by simp [hadm]), if_pos hmatch]
      by_cases hg : r.link ≠ "" ∧ r.link ∉ acc
      · rw [if_pos hg]
        exact mem_acc_panoLoop vl rs _ (by simp)
      · rw [if_neg hg]
        have hin : r.link ∈ acc := by
          by_contra hc
          exact hg ⟨hlink, hc⟩
        exact mem_acc_panoLoop vl rs acc hin
    · split
      · exact ih acc hmem' hadm hmatch hlink
      · split
        · split
          · exact ih _ hmem' hadm hmatch hlink
          · exact ih acc hmem' hadm hmatch hlink
        · exact ih acc hmem' hadm hmatch hlink

/-- C5: deduplication of qualifying links.  First: in the Pano classifier,
two distinct qualifying result records sharing one link yield that link
exactly once in the output URL list.  Second: the first-seen
deduplication of the engine agrees with the specification's "keep the
first occurrence, drop later duplicates" and is a sublist of its input,
so input order is preserved.  Third: the drone classifier's source URLs
are exactly the first-seen deduplication of the collected candidate
list. -/
theorem c5_dedup_of_qualifying_links :
    (∀ (un : String) (rs : List SearchResult) (r1 r2 : SearchResult),
       r1 ∈ rs → r2 ∈ rs → r1 ≠ r2 →
       panoAdmissible r1 = true → panoMatch ((pano_variations un).map pyLower) r1 = true →
       panoAdmissible r2 = true → panoMatch ((pano_variations un).map pyLower) r2 = true →
       r1.link = r2.link → r1.link ≠ "" →
       ((check_pano_ai_usage un rs).2).count r1.link = 1)
    ∧ (∀ l : List String, dedupFirstSeen l = firstSeenSpec l ∧ (dedupFirstSeen l).Sublist l)
    ∧ (∀ (crit : MatchCriteria) (un : String) (rs : List SearchResult),
         (utility_uses_drones crit un rs).sourceUrls
           = dedupFirstSeen (collectMatches crit un (get_utility_name_variations un) rs)) := by
  refine ⟨?_, fun l => ⟨dedupFirstSeen_eq_spec l, sublist_dedupFirstSeen l⟩, ?_⟩
  · intro un rs r1 r2 h1 _ _ hadm1 hmatch1 _ _ _ hlink
    have hmem : r1.link ∈ panoLoop ((pano_variations un).map pyLower) [] rs :=
      mem_panoLoop_of_qualifies _ rs [] h1 hadm1 hmatch1 hlink
    have hnd : (panoLoop ((pano_variations un).map pyLower) [] rs).Nodup :=
      nodup_panoLoop _ rs [] List.nodup_nil
    simpa [check_pano_ai_usage] using List.count_eq_one_of_mem hnd hmem
  · intro crit un rs
    cases rs with
    | nil => simp [utility_uses_drones, collectMatches, dedupFirstSeen, dedupLoop]
    | cons r rs =>
      rw [utility_uses_drones]
      cases hv : (collectMatches crit un (get_utility_name_variations un) (r :: rs)).isEmpty
      · simp [List.isEmpty] at *
        simp [hv]
      · have hnil := List.isEmpty_iff.mp hv
        simp [List.isEmpty, hnil, dedupFirstSeen, dedupLoop]

/-- C5 witness: two distinct qualifying Pano results with the same link
produce that link exactly once. -/
theorem c5_dedup_of_qualifying_links_witness :
    ((check_pano_ai_usage "SECO Energy"
        [⟨"Seco Energy uses Pano AI", "", "https://a"⟩,
         ⟨"Pano AI at Seco Energy", "x", "https://a"⟩]).2).count "https://a" = 1 :=
  c5_dedup_of_qualifying_links.1 "SECO Energy"
    [⟨"Seco Energy uses Pano AI", "", "https://a"⟩,
     ⟨"Pano AI at Seco Energy", "x", "https://a"⟩]
    ⟨"Seco Energy uses Pano AI", "", "https://a"⟩
    ⟨"Pano AI at Seco Energy", "x", "https://a"⟩
    (by decide) (by decide) (by decide) (by decide) (by decide)
    (by decide) (by decide) (by decide) (by decide)

/-- C6 counterexample: the claimed substitution table is not implemented.
"company" occurs in the lowercased name "acme company", yet the drone-flow
generator adds no "acme co" rewrite (company/co is only a suffix-stoplist
token there); and "Co-op" occurs in "Acme Co-op", yet the Pano generator
adds no "Acme Cooperative" rewrite (its table has no
abbreviated-to-expanded direction). -/
theorem c6_missing_pairs_counterexample :
    strContains (pyLower (pyStrip "Acme Company")) "company" = true
    ∧ "acme co" ∉ get_utility_name_variations "Acme Company"
    ∧ strContains "Acme Co-op" "Co-op" = true
    ∧ "Acme Cooperative" ∉ pano_variations "Acme Co-op" := by
  exact ⟨by decide, by decide, by decide, by decide⟩

/-- C6 amended: the substitution tables actually implemented.  Drone flow:
the pairs are co-op↔cooperative, assn↔association and inc↔incorporated;
when either side occurs, the rewrite towards the other side is added (the
rewrite towards the occurring side merely duplicates an existing
variation); company/co and corporation/corp are not substitution pairs
there.  Pano flow: the pairs are Cooperative→{Coop, Co-op},
Company→{Co, Co.} and Corporation→{Corp, Corp.}, applied only in the
expanded-to-abbreviated direction. -/
theorem c6_substitution_table (name pname : String) :
    (strContains (pyLower (pyStrip name)) "co-op" = true →
       pyReplace (pyLower (pyStrip name)) "co-op" "cooperative"
         ∈ get_utility_name_variations name)
    ∧ (strContains (pyLower (pyStrip name)) "cooperative" = true →
       pyReplace (pyLower (pyStrip name)) "cooperative" "co-op"
         ∈ get_utility_name_variations name)
    ∧ (strContains (pyLower (pyStrip name)) "assn" = true →
       pyReplace (pyReplace (pyLower (pyStrip name)) "assn." "association")
           "assn" "association"
         ∈ get_utility_name_variations name)
    ∧ (strContains (pyLower (pyStrip name)) "association" = true →
       pyReplace (pyLower (pyStrip name)) "association" "assn"
         ∈ get_utility_name_variations name)
    ∧ (strContains (pyLower (pyStrip name)) "inc" = true →
       pyReplace (pyReplace (pyLower (pyStrip name)) "inc." "incorporated")
           "inc" "incorporated"
         ∈ get_utility_name_variations name)
    ∧ (strContains (pyLower (pyStrip name)) "incorporated" = true →
       pyReplace (pyLower (pyStrip name)) "incorporated" "inc"
         ∈ get_utility_name_variations name)
    ∧ (strContains pname "Cooperative" = true →
       pyReplace pname "Cooperative" "Coop" ∈ pano_variations pname
       ∧ pyReplace pname "Cooperative" "Co-op" ∈ pano_variations pname)
    ∧ (strContains pname "Company" = true →
       pyReplace pname "Company" "Co" ∈ pano_variations pname
       ∧ pyReplace pname "Company" "Co." ∈ pano_variations pname)
    ∧ (strContains pname "Corporation" = true →
       pyReplace pname "Corporation" "Corp" ∈ pano_variations pname
       ∧ pyReplace pname "Corporation" "Corp." ∈ pano_variations pname) := by
  refine ⟨?_, ?_, ?_, ?_, ?_, ?_, ?_, ?_, ?_⟩ <;> intro h <;>
    simp [get_utility_name_variations, pano_variations, mem_dedupFirstSeen, h]

/-- C6 witness: a name containing every left- or right-hand side handled by
the drone flow, and a Pano name containing all three expanded forms. -/
theorem c6_substitution_table_witness :
    pyReplace (pyLower (pyStrip "co-op cooperative assn association inc incorporated"))
        "co-op" "cooperative"
      ∈ get_utility_name_variations "co-op cooperative assn association inc incorporated"
    ∧ pyReplace (pyLower (pyStrip "co-op cooperative assn association inc incorporated"))
        "cooperative" "co-op"
      ∈ get_utility_name_variations "co-op cooperative assn association inc incorporated"
    ∧ pyReplace (pyReplace
          (pyLower (pyStrip "co-op cooperative assn association inc incorporated"))
          "assn." "association") "assn" "association"
      ∈ get_utility_name_variations "co-op cooperative assn association inc incorporated"
    ∧ pyReplace (pyLower (pyStrip "co-op cooperative assn association inc incorporated"))
        "association" "assn"
      ∈ get_utility_name_variations "co-op cooperative assn association inc incorporated"
    ∧ pyReplace (pyReplace
          (pyLower (pyStrip "co-op cooperative assn association inc incorporated"))
          "inc." "incorporated") "inc" "incorporated"
      ∈ get_utility_name_variations "co-op cooperative assn association inc incorporated"
    ∧ pyReplace (pyLower (pyStrip "co-op cooperative assn association inc incorporated"))
        "incorporated" "inc"
      ∈ get_utility_name_variations "co-op cooperative assn association inc incorporated"
    ∧ pyReplace "Cooperative Company Corporation" "Cooperative" "Coop"
      ∈ pano_variations "Cooperative Company Corporation"
    ∧ pyReplace "Cooperative Company Corporation" "Company" "Co"
      ∈ pano_variations "Cooperative Company Corporation"
    ∧ pyReplace "Cooperative Company Corporation" "Corporation" "Corp"
      ∈ pano_variations "Cooperative Company Corporation" := by
  have h := c6_substitution_table "co-op cooperative assn association inc incorporated"
    "Cooperative Company Corporation"
  exact ⟨h.1 (by decide), h.2.1 (by decide), h.2.2.1 (by decide),
    h.2.2.2.1 (by decide), h.2.2.2.2.1 (by decide), h.2.2.2.2.2.1 (by decide),
    (h.2.2.2.2.2.2.1 (by decide)).1, (h.2.2.2.2.2.2.2.1 (by decide)).1,
    (h.2.2.2.2.2.2.2.2 (by decide)).1⟩

/-- C7 counterexample: the Pano generator (one of the two cited variation
generators) does not lowercase: its output on "SECO Energy" does not
contain the lowercased trimmed original "seco energy". -/
theorem c7_pano_not_lowercased :
    pyLower (pyStrip "SECO Energy") ∉ pano_variations "SECO Energy" := by
  decide

/-- C7 amended: for every non-empty organization name, the drone-flow
generator's output contains the lowercased trimmed original and holds no
duplicates; the Pano generator's output contains the original name
unmodified (not lowercased) and holds no duplicates, and the lowercased
copies it is matched through contain the lowercased original. -/
theorem c7_variation_invariants (name : String) (_h : name ≠ "") :
    pyLower (pyStrip name) ∈ get_utility_name_variations name
    ∧ (get_utility_name_variations name).Nodup
    ∧ name ∈ pano_variations name
    ∧ (pano_variations name).Nodup
    ∧ pyLower name ∈ (pano_variations name).map pyLower := by
  refine ⟨?_, nodup_dedupFirstSeen _, ?_, nodup_dedupFirstSeen _, ?_⟩
  · simp [get_utility_name_variations, mem_dedupFirstSeen]
  · simp [pano_variations, mem_dedupFirstSeen]
  · exact List.mem_map_of_mem _ (by simp [pano_variations, mem_dedupFirstSeen])

/-- C7 witness. -/
theorem c7_variation_invariants_witness :
    pyLower (pyStrip "SECO Energy") ∈ get_utility_name_variations "SECO Energy"
    ∧ (get_utility_name_variations "SECO Energy").Nodup
    ∧ "SECO Energy" ∈ pano_variations "SECO Energy"
    ∧ (pano_variations "SECO Energy").Nodup
    ∧ pyLower "SECO Energy" ∈ (pano_variations "SECO Energy").map pyLower :=
  c7_variation_invariants "SECO Energy" (by decide)

/-- C8: the classifier is a total function into `ClassificationResult`
(the Lean embedding is structurally recursive, so every path returns), and
result records with missing `title`, `snippet` or `link` fields are
classified exactly as if the missing fields were the empty string. -/
theorem c8_missing_fields_default (crit : MatchCriteria) (utility_name : String)
    (raws : List RawResult) :
    utility_uses_drones_raw crit utility_name raws
      = utility_uses_drones crit utility_name (raws.map rawToResult) := by
  cases raws with
  | nil => rfl
  | cons r rs =>
    simp only [utility_uses_drones_raw, utility_uses_drones, List.map, List.isEmpty,
      collectMatchesRaw_eq_map]

/-- C9: the second Tier-A pass (`three_word_variations`, `main.py` lines
399-403) filters with the identical predicate as the first
(`full_name_variations`, lines 395-397) and re-evaluates the identical
substring test, so it never changes `has_utility_name`, and removing it
leaves the whole classifier unchanged on every input. -/
theorem c9_second_tierA_pass_redundant :
    (∀ (un : String) (vars : List String) (blob : String),
       nameCheck un vars blob = nameCheckNoSecond un vars blob)
    ∧ (∀ (crit : MatchCriteria) (un : String) (rs : List SearchResult),
       utility_uses_drones crit un rs = utility_uses_drones_noSecond crit un rs) := by
  refine ⟨nameCheck_eq_noSecond, ?_⟩
  intro crit un rs
  simp only [utility_uses_drones, utility_uses_drones_noSecond, collectMatches_eq_noSecond]

/-- C10: the Pano classifier's source-URL list never contains the empty
string, and a single result whose link is empty yields no evidence even
when its text matches, because the `if link` guard rejects the empty
link before appending. -/
theorem c10_no_empty_source_url :
    (∀ (un : String) (rs : List SearchResult), "" ∉ (check_pano_ai_usage un rs).2)
    ∧ (∀ (un : String) (r : SearchResult), r.link = "" →
       check_pano_ai_usage un [r] = (false, [])) := by
  constructor
  · intro un rs
    simpa [check_pano_ai_usage] using
      panoLoop_no_empty ((pano_variations un).map pyLower) rs [] (by simp)
  · intro un r h
    have hg : ¬(r.link ≠ "" ∧ r.link ∉ ([] : List String)) := by simp [h]
    simp only [check_pano_ai_usage, panoLoop, if_neg hg]
    simp [ite_self, panoLoop]

/-- C10 witness: a result whose text names the utility and a Pano keyword
but whose link is empty contributes nothing. -/
theorem c10_no_empty_source_url_witness :
    check_pano_ai_usage "SECO Energy" [⟨"Seco Energy uses Pano AI", "", ""⟩]
      = (false, []) :=
  c10_no_empty_source_url.2 "SECO Energy" ⟨"Seco Energy uses Pano AI", "", ""⟩ rfl

end WebScraper
